import Mathlib

/-!
Verification of the PINN heat-equation notebook
(`pde_solver_using_nn`, single notebook `PINN_Heat_Equation.ipynb`).

Real numbers of the notebook are modelled as exact rationals; a tensor of
shape `(n, 1)` (a column) is a `List (List ℚ)` whose rows are singleton
lists; a batch of spatial points is a `List (List ℚ)`.
-/

/-- The notebook's time period of the source term: `period = 0.2`. -/
def period : ℚ := 0.2

/-- A Python runtime error. The notebook's `heat_src` contains the call
`math.cel(t/period)`; Python's `math` module has no attribute `cel`
(the existing functions are `ceil` and `floor`), so the attribute lookup
raises `AttributeError`. -/
inductive PyError
  | attributeErrorMathCel
  deriving DecidableEq

/-- The attribute lookup `math.cel` performed by `heat_src`: the attribute
does not exist, so the lookup yields an `AttributeError` instead of a
rounding function. -/
def math_cel : Except PyError (ℚ → ℚ) :=
  Except.error PyError.attributeErrorMathCel

/-- `tf.zeros((n, 1))`: a column of `n` zeros. -/
def tf_zeros (n : ℕ) : List (List ℚ) :=
  List.replicate n [(0 : ℚ)]

/-- `tf.ones((n, 1))`: a column of `n` ones. -/
def tf_ones (n : ℕ) : List (List ℚ) :=
  List.replicate n [(1 : ℚ)]

/-- Initial condition `fun_u_0(x)`: `n = x.shape[0]`, then
`tf.zeros((n, 1))`. -/
def fun_u_0 (x : List (List ℚ)) : List (List ℚ) :=
  tf_zeros x.length

/-- Boundary condition `fun_u_b(x, t)`: `n = x.shape[0]`, then
`tf.zeros((n, 1))`. -/
def fun_u_b (x : List (List ℚ)) (t : List (List ℚ)) : List (List ℚ) :=
  tf_zeros x.length

/-- The conditional body of `heat_src` (source lines following the phase
computation), taking the already-computed `point_within_period` value:
if the phase is in `[0.0, 0.2]`, return ones when `x[0] > 0.5` and
`x[1] > -0.5`, else zeros; elif the phase is in `[0.5, 0.7]`, return ones
when `x[0] > -0.5` and `x[1] > 0.5`, else zeros; else return zeros.
All branches build a column of length `n = x.shape[0]`. -/
def heat_src_body (x : List ℚ) (point_within_period : ℚ) : List (List ℚ) :=
  let n := x.length
  if point_within_period ≥ 0.0 ∧ point_within_period ≤ 0.2 then
    if x.getD 0 0 > 0.5 ∧ x.getD 1 0 > -0.5 then
      tf_ones n
    else
      tf_zeros n
  else if point_within_period ≥ 0.5 ∧ point_within_period ≤ 0.7 then
    if x.getD 0 0 > -0.5 ∧ x.getD 1 0 > 0.5 then
      tf_ones n
    else
      tf_zeros n
  else
    tf_zeros n

/-- `heat_src(x, t)`: first evaluates
`point_within_period = t/period - math.cel(t/period)`; the lookup of
`math.cel` raises `AttributeError`, so control never reaches the
conditional body `heat_src_body`. -/
def heat_src (x : List ℚ) (t : ℚ) : Except PyError (List (List ℚ)) :=
  match math_cel with
  | Except.error e => Except.error e
  | Except.ok cel =>
      Except.ok (heat_src_body x (t / period - cel (t / period)))

/-- `fun_residual(x, t, f_x, u_xx, u_yy, u_t, u)`: returns
`f_x + u_xx + u_yy - u_t` (elementwise tensor arithmetic, modelled on one
entry). -/
def fun_residual (x t f_x u_xx u_yy u_t u : ℚ) : ℚ :=
  f_x + u_xx + u_yy - u_t

/-- Modelled from the spec: the body of `draw_X` is an empty stub in the
notebook (the cell contains only the decorator, the signature and
`dim = a.shape[0]`). Section 4.4 of the spec requires it to produce
`num_samples` points sampled uniformly inside the hyper-rectangle `[a, b]`.
Uniform random draws are modelled by an ambient stream `r` of unit-interval
samples: component `j` of point `i` is `a_j + (b_j - a_j) * r i j`. -/
def draw_X (num_samples : ℕ) (a b : List ℚ) (r : ℕ → ℕ → ℚ) :
    List (List ℚ) :=
  let dim := a.length
  (List.range num_samples).map fun i =>
    (List.range dim).map fun j =>
      a.getD j 0 + (b.getD j 0 - a.getD j 0) * r i j

/-- A point `p` lies inside the hyper-rectangle `[a, b]` componentwise. -/
def in_rect (a b p : List ℚ) : Prop :=
  ∀ j < a.length, a.getD j 0 ≤ p.getD j 0 ∧ p.getD j 0 ≤ b.getD j 0

instance (a b p : List ℚ) : Decidable (in_rect a b p) := by
  unfold in_rect
  infer_instance

/-- Every point of the list lies inside `[a, b]` componentwise. -/
def all_in_rect (a b : List ℚ) (ps : List (List ℚ)) : Prop :=
  ∀ p ∈ ps, in_rect a b p

instance (a b : List ℚ) (ps : List (List ℚ)) : Decidable (all_in_rect a b ps) := by
  unfold all_in_rect
  infer_instance

theorem getD_map_range (dim : ℕ) (f : ℕ → ℚ) (j : ℕ) (hj : j < dim) :
    ((List.range dim).map f).getD j 0 = f j := by
  rw [List.getD_eq_getElem?_getD, List.getElem?_map, List.getElem?_range hj]
  rfl

/-- Claim C1: the claim states that `heat_src` computes the phase of `t` as
the fractional part of `t / period` (a floor/modulo operation). The code
instead calls the non-existent `math.cel`, so the phase is never computed:
at `t = 0.05` (where the claimed phase would be `0.25`) the call raises
`AttributeError`. The spec itself records the call as a bug to be corrected,
so the code, not the claim, is at fault. -/
theorem heat_src_phase_call_fails_eval :
    heat_src [1, 1] (1 / 20) = Except.error PyError.attributeErrorMathCel :=
  rfl

/-- Claim C2: for every input `x` and `t`, `heat_src` raises an
attribute error at runtime, because its phase computation looks up the
non-existent `math.cel`. -/
theorem heat_src_always_raises (x : List ℚ) (t : ℚ) :
    heat_src x t = Except.error PyError.attributeErrorMathCel :=
  rfl

/-- Claim C3: the claimed duty-cycle window behavior, including the two
quoted evaluations `heat_src([1,1], 0.0) = 1` and
`heat_src([1,1], 0.05) = 0`. The actual code raises `AttributeError` on
both calls before reaching the windows; the conditional body, fed the
phases the claim states (`0` and `0.25`), does return the claimed columns
of ones and zeros, so the claim matches the intent and the code fails only
through the `math.cel` slip. -/
theorem heat_src_windows_eval :
    heat_src [1, 1] 0 = Except.error PyError.attributeErrorMathCel ∧
    heat_src_body [1, 1] 0 = tf_ones 2 ∧
    heat_src_body [1, 1] (1 / 4) = tf_zeros 2 :=
  ⟨rfl, by norm_num [heat_src_body], by norm_num [heat_src_body]⟩

/-- Claim C4: for all inputs, `fun_residual` returns exactly
`f_x + u_xx + u_yy - u_t`, and substituting `f = 1`, `u_xx = 2`,
`u_yy = 3`, `u_t = 4` yields residual `2`. -/
theorem fun_residual_formula :
    (∀ x t f_x u_xx u_yy u_t u : ℚ,
      fun_residual x t f_x u_xx u_yy u_t u = f_x + u_xx + u_yy - u_t) ∧
    fun_residual 0 0 1 2 3 4 0 = 2 :=
  ⟨fun _ _ _ _ _ _ _ => rfl, by norm_num [fun_residual]⟩

/-- Claim C5: for every input batch of nonzero size `n`, `fun_u_0` and
`fun_u_b` each return a column of zeros of length exactly `n`. -/
theorem fun_u0_ub_zero_column (x : List (List ℚ)) (t : List (List ℚ))
    (h : 0 < x.length) :
    fun_u_0 x = List.replicate x.length [(0 : ℚ)] ∧
    (fun_u_0 x).length = x.length ∧
    fun_u_b x t = List.replicate x.length [(0 : ℚ)] ∧
    (fun_u_b x t).length = x.length := by
  refine ⟨rfl, ?_, rfl, ?_⟩ <;> simp [fun_u_0, fun_u_b, tf_zeros]

/-- Witness for claim C5 at the concrete batch `x = [[0, 0]]`,
`t = [[0]]` of size `1 > 0`. -/
theorem fun_u0_ub_zero_column_witness :
    fun_u_0 [[(0 : ℚ), 0]] = List.replicate (List.length [[(0 : ℚ), 0]]) [(0 : ℚ)] ∧
    (fun_u_0 [[(0 : ℚ), 0]]).length = List.length [[(0 : ℚ), 0]] ∧
    fun_u_b [[(0 : ℚ), 0]] [[(0 : ℚ)]] = List.replicate (List.length [[(0 : ℚ), 0]]) [(0 : ℚ)] ∧
    (fun_u_b [[(0 : ℚ), 0]] [[(0 : ℚ)]]).length = List.length [[(0 : ℚ), 0]] :=
  fun_u0_ub_zero_column [[0, 0]] [[0]] (by decide)

/-- Claim C6: the claim states the phase computed by `heat_src` satisfies
`phase(t) = phase(t + k * period)`. The code raises `AttributeError` while
computing the phase (the `math.cel` lookup), so no phase value exists to
compare: at `t = 0.3`, `k = 1`, both `heat_src` calls error out instead of
producing equal phases. The spec records the call as a bug, so the claim
captures the intent and the code is the slip. -/
theorem heat_src_periodicity_eval :
    heat_src [1, 1] (3 / 10) = Except.error PyError.attributeErrorMathCel ∧
    heat_src [1, 1] (3 / 10 + 1 * period) =
      Except.error PyError.attributeErrorMathCel :=
  ⟨rfl, rfl⟩

/-- Claim C7: every value produced by the return branches of `heat_src` is
exactly `0` or exactly `1`: for any point and any phase value, the
conditional body returns either the all-ones column or the all-zeros
column (the phase computation itself always errors, so the invariant is
established on the body, which is where every return of `heat_src`
originates). -/
theorem heat_src_body_values_zero_or_one (x : List ℚ) (pw : ℚ) :
    heat_src_body x pw = tf_ones x.length ∨
    heat_src_body x pw = tf_zeros x.length := by
  unfold heat_src_body
  split_ifs <;> simp

/-- Claim C8: `draw_X` (modelled from the spec, its body being an empty
stub in the notebook) produces exactly `num_samples` points, each lying in
the hyper-rectangle `[a, b]` componentwise, whenever the unit samples lie
in `[0, 1]` and the bounds satisfy `a ≤ b` componentwise. -/
theorem draw_X_count_and_bounds (num_samples : ℕ) (a b : List ℚ)
    (r : ℕ → ℕ → ℚ)
    (hr : ∀ i j, 0 ≤ r i j ∧ r i j ≤ 1)
    (hab : ∀ j < a.length, a.getD j 0 ≤ b.getD j 0) :
    (draw_X num_samples a b r).length = num_samples ∧
    all_in_rect a b (draw_X num_samples a b r) := by
  constructor
  · simp [draw_X]
  · intro p hp j hj
    simp only [draw_X, List.mem_map, List.mem_range] at hp
    obtain ⟨i, hi, rfl⟩ := hp
    rw [getD_map_range _ _ _ hj]
    obtain ⟨h0, h1⟩ := hr i j
    have hj' := hab j hj
    constructor
    · nlinarith
    · nlinarith

/-- Witness for claim C8 at `num_samples = 2`, `a = [0, -1]`,
`b = [1, 1]`, with every unit sample equal to `1/2`. -/
theorem draw_X_count_and_bounds_witness :
    (draw_X 2 [(0 : ℚ), -1] [1, 1] (fun _ _ => 1 / 2)).length = 2 ∧
    all_in_rect [(0 : ℚ), -1] [1, 1]
      (draw_X 2 [(0 : ℚ), -1] [1, 1] (fun _ _ => 1 / 2)) :=
  draw_X_count_and_bounds 2 [0, -1] [1, 1] (fun _ _ => 1 / 2)
    (fun _ _ => ⟨by norm_num, by norm_num⟩) (by decide)

/-- Claim C9: the result of `fun_residual` is independent of its `x`, `t`
and `u` arguments: any two calls agreeing on `f_x`, `u_xx`, `u_yy`, `u_t`
return equal results. -/
theorem fun_residual_ignores_x_t_u
    (x x' t t' u u' f_x u_xx u_yy u_t : ℚ) :
    fun_residual x t f_x u_xx u_yy u_t u =
    fun_residual x' t' f_x u_xx u_yy u_t u' :=
  rfl

/-- Claim C10: every return branch of `heat_src` yields a column of shape
`(n, 1)` with `n = x.shape[0]`: for any phase value reaching the
conditional body, the output has length `x.length` and every row is a
singleton. -/
theorem heat_src_body_column_shape (x : List ℚ) (pw : ℚ) :
    (heat_src_body x pw).length = x.length ∧
    ((heat_src_body x pw).all fun row => row.length == 1) = true := by
  unfold heat_src_body
  split_ifs <;> simp [tf_ones, tf_zeros]
